import Mathlib

/-!
Verification of the fanout-immo-scraper crawl pipeline.

Shallow embedding of the pipeline's core logic: the shared `chunk_list`
helper, the Discovery Worker's collection/watermark step, the Extractor
Worker's per-ID fetch loop, the Dispatcher's total-page computation, the
watermark-store read, and the per-invocation handler loop with its
near-timeout guard.  External collaborators (HTTP, SQS, S3, SSM) are
modelled as oracles/parameters; the control and data flow is translated
from the Python sources.
-/

/-- Embeds `chunk_list` (`src/dispatcher/utils.py` lines 86-89 and
`src/discovery_worker/utils.py` lines 91-94):
`if not data: return []` then
`[data[i:i + size] for i in range(0, len(data), size)]`.
Python's `range(0, n, size)` for `size > 0` has `(n + size - 1) / size`
elements `0, size, 2*size, ...`, and the slice `data[i:i+size]` is
`(data.drop i).take size`. -/
def chunk_list {α : Type} (data : List α) (size : Nat) : List (List α) :=
  match data with
  | [] => []
  | _ :: _ =>
      (List.range' 0 ((data.length + size - 1) / size) size).map
        (fun i => (data.drop i).take size)

lemma chunk_list_nil {α : Type} (size : Nat) : chunk_list ([] : List α) size = [] := rfl

lemma range'_map_shift {β : Type} (f : Nat → β) (s : Nat) :
    ∀ (k a : Nat),
      (List.range' (a + s) k s).map f = (List.range' a k s).map (fun i => f (i + s))
  | 0, _ => rfl
  | k + 1, a => by
      simp only [List.range'_succ, List.map_cons]
      rw [range'_map_shift f s k (a + s)]

/-- Unfolding lemma: for a positive chunk size, `chunk_list` peels off the
first `size` elements and recurses on the rest. -/
lemma chunk_list_cons {α : Type} (s : Nat) (hs : 0 < s) (x : α) (xs : List α) :
    chunk_list (x :: xs) s = (x :: xs).take s :: chunk_list ((x :: xs).drop s) s := by
  have hnum : (x :: xs).length + s - 1 = xs.length + s := by
    simp only [List.length_cons]; omega
  have hk : ((x :: xs).length + s - 1) / s = xs.length / s + 1 := by
    rw [hnum, Nat.add_div_right _ hs]
  show (List.range' 0 (((x :: xs).length + s - 1) / s) s).map
      (fun i => ((x :: xs).drop i).take s) = _
  rw [hk, List.range'_succ, List.map_cons, Nat.zero_add]
  have hshift := range'_map_shift (fun i => ((x :: xs).drop i).take s) s (xs.length / s) 0
  rw [Nat.zero_add] at hshift
  rw [hshift]
  simp only [List.drop_zero]
  congr 1
  have hdd : ∀ i : Nat, ((x :: xs).drop (i + s)) = (((x :: xs).drop s).drop i) := by
    intro i; rw [List.drop_drop]; congr 1; omega
  rcases hd : (x :: xs).drop s with _ | ⟨y, ys⟩
  · have hlen := congrArg List.length hd
    simp only [List.length_drop, List.length_cons, List.length_nil] at hlen
    have hxs : xs.length / s = 0 := Nat.div_eq_of_lt (by omega)
    rw [hxs]
    rfl
  · have hlen := congrArg List.length hd
    simp only [List.length_drop, List.length_cons] at hlen
    have hsle : s ≤ xs.length := by omega
    show _ = chunk_list (y :: ys) s
    have hk2 : ((y :: ys).length + s - 1) / s = xs.length / s := by
      have : (y :: ys).length + s - 1 = xs.length := by
        simp only [List.length_cons]; omega
      rw [this]
    show _ = (List.range' 0 (((y :: ys).length + s - 1) / s) s).map
        (fun i => ((y :: ys).drop i).take s)
    rw [hk2]
    apply List.map_congr_left
    intro i _
    rw [hdd i, hd]

/-- A nonempty list chunks into a nonempty list of chunks. -/
lemma chunk_list_ne_nil {α : Type} (s : Nat) (hs : 0 < s) (x : α) (xs : List α) :
    chunk_list (x :: xs) s ≠ [] := by
  rw [chunk_list_cons s hs x xs]; simp

/-- Concatenating the chunks restores the original list (order preservation). -/
lemma chunk_list_flatten {α : Type} (s : Nat) (hs : 0 < s) :
    ∀ (n : Nat) (l : List α), l.length ≤ n → (chunk_list l s).flatten = l := by
  intro n
  induction n with
  | zero =>
      intro l hl
      have : l = [] := List.eq_nil_of_length_eq_zero (Nat.le_zero.mp hl)
      subst this; rfl
  | succ n ih =>
      intro l hl
      rcases l with _ | ⟨x, xs⟩
      · rfl
      · rw [chunk_list_cons s hs x xs, List.flatten_cons]
        have hlen : ((x :: xs).drop s).length ≤ n := by
          simp only [List.length_drop, List.length_cons] at hl ⊢; omega
        rw [ih _ hlen, List.take_append_drop]

/-- All chunks except the last have length exactly `s`, and the last chunk
has length in `[1, s]`. -/
lemma chunk_list_sizes {α : Type} (s : Nat) (hs : 0 < s) :
    ∀ (n : Nat) (l : List α), l.length ≤ n →
      (∀ c ∈ (chunk_list l s).dropLast, c.length = s) ∧
      (∀ c, (chunk_list l s).getLast? = some c → 1 ≤ c.length ∧ c.length ≤ s) := by
  intro n
  induction n with
  | zero =>
      intro l hl
      have : l = [] := List.eq_nil_of_length_eq_zero (Nat.le_zero.mp hl)
      subst this
      exact ⟨by intro c hc; simp [chunk_list] at hc,
             by intro c hc; simp [chunk_list] at hc⟩
  | succ n ih =>
      intro l hl
      rcases l with _ | ⟨x, xs⟩
      · exact ⟨by intro c hc; simp [chunk_list] at hc,
               by intro c hc; simp [chunk_list] at hc⟩
      · rw [chunk_list_cons s hs x xs]
        have ihd := ih ((x :: xs).drop s)
          (by simp only [List.length_drop, List.length_cons] at hl ⊢; omega)
        rcases hd : chunk_list ((x :: xs).drop s) s with _ | ⟨c0, cs⟩
        · constructor
          · intro c hc; simp at hc
          · intro c hc
            simp only [List.getLast?_singleton, Option.some.injEq] at hc
            subst hc
            simp only [List.length_take, List.length_cons]
            omega
        · have hdne : (x :: xs).drop s ≠ [] := by
            intro h; rw [h] at hd; simp [chunk_list] at hd
          have hslen : s < xs.length + 1 := by
            by_contra hcon
            exact hdne (List.drop_eq_nil_of_le
              (by simp only [List.length_cons]; omega))
          rw [hd] at ihd
          constructor
          · intro c hc
            rw [show ((x :: xs).take s :: c0 :: cs).dropLast
                  = (x :: xs).take s :: (c0 :: cs).dropLast from rfl] at hc
            rcases List.mem_cons.mp hc with hc | hc
            · subst hc
              simp only [List.length_take, List.length_cons]
              omega
            · exact (ihd).1 c hc
          · intro c hc
            rw [List.getLast?_cons_cons] at hc
            exact (ihd).2 c hc

/-- C3: for every list `L` and chunk size `S > 0`, `chunk_list` preserves the
order of `L`'s elements (their concatenation restores `L`), every chunk except
possibly the last has length exactly `S`, the last chunk has length between 1
and `S`, and chunking the empty list yields no chunks. -/
theorem C3_chunk_list_spec {α : Type} (L : List α) (S : Nat) (hS : 0 < S) :
    (chunk_list L S).flatten = L ∧
    (∀ c ∈ (chunk_list L S).dropLast, c.length = S) ∧
    (∀ c, (chunk_list L S).getLast? = some c → 1 ≤ c.length ∧ c.length ≤ S) ∧
    chunk_list ([] : List α) S = [] := by
  refine ⟨chunk_list_flatten S hS L.length L (Nat.le_refl _), ?_, ?_, rfl⟩
  · exact (chunk_list_sizes S hS L.length L (Nat.le_refl _)).1
  · exact (chunk_list_sizes S hS L.length L (Nat.le_refl _)).2

/-- Witness for C3 at `L = [1,2,3,4,5]`, `S = 2`. -/
theorem C3_chunk_list_spec_witness :
    0 < 2 ∧
    ((chunk_list [1, 2, 3, 4, 5] 2).flatten = [1, 2, 3, 4, 5] ∧
     (∀ c ∈ (chunk_list [1, 2, 3, 4, 5] 2).dropLast, c.length = 2) ∧
     (∀ c, (chunk_list [1, 2, 3, 4, 5] 2).getLast? = some c →
        1 ≤ c.length ∧ c.length ≤ 2) ∧
     chunk_list ([] : List Nat) 2 = []) :=
  ⟨by decide, C3_chunk_list_spec [1, 2, 3, 4, 5] 2 (by decide)⟩

/-! ## HTTP attempts and the two retry loops -/

/-- One outcome of a `session.get` as seen by a retry loop: either an HTTP
response carrying a status code and a parsed body (`none` models a
`json.JSONDecodeError`), or a transport-level `requests.RequestException`. -/
inductive HttpAttempt (β : Type) where
  | response (status_code : Nat) (body : Option β)
  | netError
deriving DecidableEq

/-- Embeds the `while nbr_retries < max_retries` loop of
`scrape_search_page_with_retries` (`src/discovery_worker/lambda_function.py`
lines 46-74).  `responses n` is the outcome of the `n`-th `session.get`;
for a 200 response the body models `response.json().get("results", [])`.
The `remaining` argument is `max_retries - nbr_retries`, so the loop runs
while `nbr_retries < max_retries`.  A 200 response with an unparseable body
hits the `break` (line 59) and falls through to the `raise` at line 74 —
the same exception as retry exhaustion.  Status 403/429, any other status,
and network errors all just retry (the sleeps are timing, not data flow).
Returns the result together with the number of `session.get` calls made. -/
def search_retry_loop {β : Type} (responses : Nat → HttpAttempt β) (page_num : Nat) :
    Nat → Nat → Except String β × Nat
  | nbr_retries, 0 =>
      (.error ("Failed to scrape page " ++ toString page_num ++ " after 5 attempts"),
       nbr_retries)
  | nbr_retries, remaining + 1 =>
      match responses nbr_retries with
      | .response 200 (some data) => (.ok data, nbr_retries + 1)
      | .response 200 none =>
          (.error ("Failed to scrape page " ++ toString page_num ++ " after 5 attempts"),
           nbr_retries + 1)
      | _ => search_retry_loop responses page_num (nbr_retries + 1) remaining

/-- Embeds `scrape_search_page_with_retries` with `max_retries = 5`
(`src/discovery_worker/lambda_function.py` line 47).  The unused `gateway`
parameter of the Python signature is dropped (the function body never
reads it). -/
def scrape_search_page_with_retries {β : Type} (responses : Nat → HttpAttempt β)
    (page_num : Nat) : Except String β × Nat :=
  search_retry_loop responses page_num 0 5

/-- Embeds the `for attempt in range(max_retries)` loop of
`scrape_ad_details` (`src/extractor_worker/lambda_function.py` lines 34-63).
For a 200 response the body models the parsed JSON; its payload `Option α`
is `data.get("classified")` (absent field ⇒ `none`).  A 200 response with an
unparseable body returns `None` (line 45); a 404 returns `None` (line 49);
403/429, other statuses and network errors retry; exhaustion raises
(line 63).  Returns the result with the number of `session.get` calls. -/
def detail_retry_loop {α : Type} (responses : Nat → HttpAttempt (Option α)) (ad_id : Int) :
    Nat → Nat → Except String (Option α) × Nat
  | attempt, 0 =>
      (.error ("Failed to fetch ID " ++ toString ad_id ++ " after 3 attempts"), attempt)
  | attempt, remaining + 1 =>
      match responses attempt with
      | .response 200 (some data) => (.ok data, attempt + 1)
      | .response 200 none => (.ok none, attempt + 1)
      | .response 404 _ => (.ok none, attempt + 1)
      | _ => detail_retry_loop responses ad_id (attempt + 1) remaining

/-- Embeds `scrape_ad_details` with `max_retries = 3`
(`src/extractor_worker/lambda_function.py` line 34). -/
def scrape_ad_details {α : Type} (responses : Nat → HttpAttempt (Option α))
    (ad_id : Int) : Except String (Option α) × Nat :=
  detail_retry_loop responses ad_id 0 3

/-! ## Discovery Worker: collection, watermark step, process_record -/

/-- One element of the `results` array of a search page: the `id` field as
returned by `result.get("id", None)` (`none` models both an absent and a
null field), plus the rest of the record, abstracted. -/
structure SearchResult (α : Type) where
  id : Option Int
  payload : α
deriving DecidableEq

/-- Embeds the inner collection loop of `process_record`
(`src/discovery_worker/lambda_function.py` lines 102-106):
`ad_id = result.get("id", None); if ad_id:` appends `ad_id` to
`all_ids_in_batch` and sets `snapshot_data_for_batch[ad_id] = result`.
Python truthiness on the fetched value: `None` and `0` are falsy, every
other integer is truthy.  The snapshot dict is modelled as its ordered
insertion sequence (key collisions across pages overwrite; key membership
is unaffected). -/
def collect_results {α : Type} : List (SearchResult α) → List Int × List (Int × SearchResult α)
  | [] => ([], [])
  | result :: rest =>
      let acc := collect_results rest
      match result.id with
      | some ad_id =>
          if ad_id ≠ 0 then (ad_id :: acc.1, (ad_id, result) :: acc.2) else acc
      | none => acc

/-- Embeds the `for page_num in page_numbers` loop of `process_record`
(`src/discovery_worker/lambda_function.py` lines 93-106).  `fetchPage p` is
the outcome of `scrape_search_page_with_retries` for page `p`; a raised
exception propagates and fails the whole message (the `if not results:
continue` at lines 98-100 is a logging no-op: collecting from an empty
results list adds nothing). -/
def collect_pages {α : Type} (fetchPage : Nat → Except String (List (SearchResult α))) :
    List Nat → Except String (List Int × List (Int × SearchResult α))
  | [] => .ok ([], [])
  | page_num :: rest => do
      let results ← fetchPage page_num
      let acc := collect_results results
      let acc_rest ← collect_pages fetchPage rest
      .ok (acc.1 ++ acc_rest.1, acc.2 ++ acc_rest.2)

/-- Python's `max` over a nonempty list (`max(all_ids_in_batch)` at
`src/discovery_worker/lambda_function.py` line 125); the `[]` case is
unreachable because the call is guarded by `if all_ids_in_batch:`. -/
def pyMax : List Int → Int
  | [] => 0
  | x :: xs => xs.foldl max x

/-- Default of `ID_BATCH_SIZE = int(os.getenv("ID_BATCH_SIZE", 100))`
(`src/discovery_worker/lambda_function.py` line 33). -/
def ID_BATCH_SIZE : Nat := 100

/-- Embeds the watermark/forwarding tail of `process_record`
(`src/discovery_worker/lambda_function.py` lines 121-143), given the value
read from the watermark store (`get_ssm_parameter`) and the collected
`all_ids_in_batch`.  Returns the ID batches sent to the extraction queue
and the stored watermark after the run (`update_ssm_parameter` only fires
when `current_max_id > last_known_max_id`). -/
def discovery_watermark_step (id_batch_size : Nat) (last_known_max_id : Int)
    (all_ids_in_batch : List Int) : List (List Int) × Int :=
  match all_ids_in_batch with
  | [] => ([], last_known_max_id)
  | x :: xs =>
      let current_max_id := pyMax (x :: xs)
      let new_ids := (x :: xs).filter (fun y => decide (last_known_max_id < y))
      let sent_batches :=
        match new_ids with
        | [] => []
        | _ :: _ => chunk_list new_ids id_batch_size
      let watermark_after :=
        if last_known_max_id < current_max_id then current_max_id else last_known_max_id
      (sent_batches, watermark_after)

/-- Embeds `process_record` of the Discovery Worker
(`src/discovery_worker/lambda_function.py` lines 78-143) end to end, with
the collaborators as parameters: `fetchPage` for the per-page fetch,
`last_known_max_id` for the SSM read, and the snapshot blob write (lines
108-119, external write-once storage) elided.  Returns the ID batches sent
and the watermark after the run.  Note: the call at line 96 passes
`(session, url, page_num)` while the definition at line 37 expects
`(session, gateway, url, page_num)`; since the `gateway` parameter is dead,
the intended data flow modelled here is the one with that parameter
dropped. -/
def discovery_process_record {α : Type} (id_batch_size : Nat)
    (fetchPage : Nat → Except String (List (SearchResult α)))
    (page_numbers : List Nat) (last_known_max_id : Int) :
    Except String (List (List Int) × Int) := do
  let collected ← collect_pages fetchPage page_numbers
  .ok (discovery_watermark_step id_batch_size last_known_max_id collected.1)

/-- C1: the IDs forwarded to the extraction queue are exactly the collected
IDs strictly greater than the prior watermark; after a batch with non-empty
`collected`, the stored watermark is `max(watermark_before, max collected)`;
with empty `collected` the watermark is unchanged. -/
theorem C1_new_ids_and_watermark (id_batch_size : Nat) (hbs : 0 < id_batch_size)
    (watermark_before : Int) (collected : List Int) :
    (discovery_watermark_step id_batch_size watermark_before collected).1.flatten
        = collected.filter (fun y => decide (watermark_before < y)) ∧
    (collected ≠ [] →
      (discovery_watermark_step id_batch_size watermark_before collected).2
        = max watermark_before (pyMax collected)) ∧
    (collected = [] →
      (discovery_watermark_step id_batch_size watermark_before collected).2
        = watermark_before) := by
  rcases collected with _ | ⟨x, xs⟩
  · exact ⟨rfl, fun h => absurd rfl h, fun _ => rfl⟩
  · refine ⟨?_, ?_, ?_⟩
    · show (match (x :: xs).filter (fun y => decide (watermark_before < y)) with
            | [] => []
            | _ :: _ =>
                chunk_list ((x :: xs).filter (fun y => decide (watermark_before < y)))
                  id_batch_size).flatten
          = (x :: xs).filter (fun y => decide (watermark_before < y))
      rcases hn : (x :: xs).filter (fun y => decide (watermark_before < y)) with _ | ⟨z, zs⟩
      · rfl
      · exact chunk_list_flatten id_batch_size hbs (z :: zs).length (z :: zs) (Nat.le_refl _)
    · intro _
      show (if watermark_before < pyMax (x :: xs) then pyMax (x :: xs) else watermark_before)
          = max watermark_before (pyMax (x :: xs))
      by_cases h : watermark_before < pyMax (x :: xs)
      · rw [if_pos h]; exact (max_eq_right h.le).symm
      · rw [if_neg h]; exact (max_eq_left (not_lt.mp h)).symm
    · intro h; exact absurd h (List.cons_ne_nil x xs)

/-- Witness for C1 at `id_batch_size = 2`, watermark 25,
collected `[10, 20, 30, 5, 40]`. -/
theorem C1_new_ids_and_watermark_witness :
    0 < 2 ∧
    ((discovery_watermark_step 2 25 [10, 20, 30, 5, 40]).1.flatten
        = [10, 20, 30, 5, 40].filter (fun y => decide ((25 : Int) < y)) ∧
     (([10, 20, 30, 5, 40] : List Int) ≠ [] →
       (discovery_watermark_step 2 25 [10, 20, 30, 5, 40]).2
         = max 25 (pyMax [10, 20, 30, 5, 40])) ∧
     (([10, 20, 30, 5, 40] : List Int) = [] →
       (discovery_watermark_step 2 25 [10, 20, 30, 5, 40]).2 = 25)) :=
  ⟨by decide, C1_new_ids_and_watermark 2 (by decide) 25 [10, 20, 30, 5, 40]⟩

/-- C6: the stored watermark never regresses: for any collected list the
watermark after the run is at least the watermark before, and re-processing
the identical batch a second time leaves the watermark unchanged. -/
theorem C6_watermark_monotone (id_batch_size : Nat) (watermark_before : Int)
    (collected : List Int) :
    watermark_before ≤ (discovery_watermark_step id_batch_size watermark_before collected).2 ∧
    (discovery_watermark_step id_batch_size
        (discovery_watermark_step id_batch_size watermark_before collected).2 collected).2
      = (discovery_watermark_step id_batch_size watermark_before collected).2 := by
  rcases collected with _ | ⟨x, xs⟩
  · exact ⟨le_refl _, rfl⟩
  · have hfst : (discovery_watermark_step id_batch_size watermark_before (x :: xs)).2
        = if watermark_before < pyMax (x :: xs) then pyMax (x :: xs) else watermark_before :=
      rfl
    constructor
    · rw [hfst]
      by_cases h : watermark_before < pyMax (x :: xs)
      · rw [if_pos h]; exact h.le
      · rw [if_neg h]
    · rw [hfst]
      by_cases h : watermark_before < pyMax (x :: xs)
      · rw [if_pos h]
        show (if pyMax (x :: xs) < pyMax (x :: xs) then _ else _) = _
        rw [if_neg (lt_irrefl _)]
      · rw [if_neg h]
        show (if watermark_before < pyMax (x :: xs) then _ else _) = _
        rw [if_neg h]

/-- The truthiness filter applied to one search result: the value added to
the collected IDs, if any. -/
lemma truthy_id_eq_some {α : Type} (r : SearchResult α) (v : Int) :
    (match r.id with
      | some w => if w ≠ 0 then some w else none
      | none => (none : Option Int)) = some v ↔ r.id = some v ∧ v ≠ 0 := by
  rcases hid : r.id with _ | w
  · simp
  · by_cases hw : w = 0
    · subst hw
      simp
      intro h; exact h.symm
    · simp [hw]
      intro h; subst h; exact hw

/-- C10: a search result contributes to the collected ID list and to the
snapshot map exactly when its `id` field is present and truthy; a result
whose `id` is absent, null (`none`) or `0` is excluded from both.  The
watermark step and new-ID forwarding consume only the collected list
(`discovery_process_record`), so exclusion there follows. -/
theorem C10_truthy_id_filter {α : Type} (results : List (SearchResult α)) :
    (collect_results results).1
        = results.filterMap (fun r => match r.id with
            | some w => if w ≠ 0 then some w else none
            | none => none) ∧
    (collect_results results).2.map Prod.fst
        = results.filterMap (fun r => match r.id with
            | some w => if w ≠ 0 then some w else none
            | none => none) ∧
    ∀ v : Int, v ∈ (collect_results results).1 ↔
      ∃ r ∈ results, r.id = some v ∧ v ≠ 0 := by
  have key : ∀ (l : List (SearchResult α)),
      (collect_results l).1
          = l.filterMap (fun r => match r.id with
              | some w => if w ≠ 0 then some w else none
              | none => none) ∧
      (collect_results l).2.map Prod.fst
          = l.filterMap (fun r => match r.id with
              | some w => if w ≠ 0 then some w else none
              | none => none) := by
    intro l
    induction l with
    | nil => exact ⟨rfl, rfl⟩
    | cons r rest ih =>
        obtain ⟨ih1, ih2⟩ := ih
        have hcons : collect_results (r :: rest)
            = match r.id with
              | some ad_id =>
                  if ad_id ≠ 0 then
                    (ad_id :: (collect_results rest).1,
                     (ad_id, r) :: (collect_results rest).2)
                  else collect_results rest
              | none => collect_results rest := rfl
        rcases hid : r.id with _ | w
        · rw [hid] at hcons
          constructor
          · rw [hcons, List.filterMap_cons, hid, ih1]
          · rw [hcons, List.filterMap_cons, hid, ih2]
        · rw [hid] at hcons
          by_cases hw : w = 0
          · subst hw
            have hcons2 : collect_results (r :: rest) = collect_results rest := by
              rw [hcons]; simp
            constructor
            · rw [hcons2, List.filterMap_cons, hid]
              simpa using ih1
            · rw [hcons2, List.filterMap_cons, hid]
              simpa using ih2
          · have hcons2 : collect_results (r :: rest)
                = (w :: (collect_results rest).1, (w, r) :: (collect_results rest).2) := by
              rw [hcons]; simp [hw]
            constructor
            · rw [hcons2, List.filterMap_cons, hid]
              simp [hw, ih1]
            · rw [hcons2, List.filterMap_cons, hid]
              simp [hw, ih2]
  refine ⟨(key results).1, (key results).2, ?_⟩
  intro v
  rw [(key results).1, List.mem_filterMap]
  constructor
  · rintro ⟨a, ha, hfa⟩
    exact ⟨a, ha, (truthy_id_eq_some a v).mp hfa⟩
  · rintro ⟨a, ha, h1, h2⟩
    exact ⟨a, ha, (truthy_id_eq_some a v).mpr ⟨h1, h2⟩⟩

/-! ## C2 scenario and C5 unparseable-body behaviour -/

/-- The page-1 results of the C2 scenario: listings with ids 10, 20, 30. -/
def c2_page1 : List (SearchResult Unit) :=
  [⟨some 10, ()⟩, ⟨some 20, ()⟩, ⟨some 30, ()⟩]

/-- The page-2 results of the C2 scenario: listings with ids 5, 40. -/
def c2_page2 : List (SearchResult Unit) :=
  [⟨some 5, ()⟩, ⟨some 40, ()⟩]

/-- The C2 scenario's HTTP attempts: every page answers on its first
attempt with a 200 response and a parseable body. -/
def c2_responses (page_num : Nat) : Nat → HttpAttempt (List (SearchResult Unit)) :=
  fun _ => .response 200 (some (if page_num = 1 then c2_page1 else c2_page2))

/-- The C2 scenario's per-page fetch: `scrape_search_page_with_retries`
run on the scenario's attempts. -/
def c2_fetchPage (page_num : Nat) : Except String (List (SearchResult Unit)) :=
  (scrape_search_page_with_retries (c2_responses page_num) page_num).1

/-- C2, against the intended data flow (the call at
`src/discovery_worker/lambda_function.py` line 96 repaired to match the
definition at line 37, whose `gateway` parameter is dead): the page-batch
`{category, pages=[1,2]}` with page 1 → ids [10,20,30], page 2 → ids [5,40]
and stored watermark 25 sends exactly one ID batch `[30, 40]` to the
extraction queue and advances the watermark to 40.  The code as written
instead raises a `TypeError` on the arity mismatch for every record. -/
theorem C2_scenario_intended_flow :
    discovery_process_record ID_BATCH_SIZE c2_fetchPage [1, 2] 25
      = .ok ([[30, 40]], 40) := by
  rfl

/-- C5 counterexample: an HTTP 200 response whose body is unparseable JSON
makes the Discovery Worker's search fetch raise (it does not return an
empty result), and the enclosing `process_record` therefore fails, so the
claim's "the caller treats the result as an empty result (the enclosing
unit of work is not marked failed)" is false for the search fetch. -/
theorem C5_search_fetch_counterexample :
    (scrape_search_page_with_retries
        (fun _ => HttpAttempt.response 200 (none : Option (List (SearchResult Unit)))) 1).1
      = .error "Failed to scrape page 1 after 5 attempts" ∧
    collect_pages
        (fun p => (scrape_search_page_with_retries
          (fun _ => HttpAttempt.response 200 (none : Option (List (SearchResult Unit)))) p).1)
        [1]
      = .error "Failed to scrape page 1 after 5 attempts" := by
  exact ⟨rfl, rfl⟩

/-- C5 as amended: an HTTP 200 response with an unparseable body stops both
fetches immediately, after exactly one attempt and with no retry; the
detail fetch returns the logical empty result `none`, which its caller
skips, while the discovery search fetch raises the exhaustion exception,
failing the enclosing page-batch message. -/
theorem C5_unparseable_body_no_retry {β γ : Type}
    (rs : Nat → HttpAttempt β) (rd : Nat → HttpAttempt (Option γ))
    (page_num : Nat) (ad_id : Int)
    (hs : rs 0 = .response 200 none) (hd : rd 0 = .response 200 none) :
    scrape_search_page_with_retries rs page_num
        = (.error ("Failed to scrape page " ++ toString page_num ++ " after 5 attempts"), 1) ∧
    scrape_ad_details rd ad_id = (.ok none, 1) := by
  constructor
  · show search_retry_loop rs page_num 0 (4 + 1) = _
    simp only [search_retry_loop, hs]
  · show detail_retry_loop rd ad_id 0 (2 + 1) = _
    simp only [detail_retry_loop, hd]

/-- Witness for C5 as amended, at constant unparseable-200 oracles. -/
theorem C5_unparseable_body_no_retry_witness :
    ((fun _ => HttpAttempt.response 200 (none : Option Nat)) 0
        = HttpAttempt.response 200 none) ∧
    (scrape_search_page_with_retries
        (fun _ => HttpAttempt.response 200 (none : Option Nat)) 3
      = (.error ("Failed to scrape page " ++ toString 3 ++ " after 5 attempts"), 1) ∧
     scrape_ad_details
        (fun _ => HttpAttempt.response 200 (none : Option (Option Nat))) 7
      = (.ok none, 1)) :=
  ⟨rfl, C5_unparseable_body_no_retry
    (fun _ => HttpAttempt.response 200 none)
    (fun _ => HttpAttempt.response 200 none) 3 7 rfl rfl⟩

/-! ## Extractor Worker: per-ID fetch loop -/

/-- Embeds the `for ad_id in ad_ids` loop of the Extractor Worker's
`process_record` (`src/extractor_worker/lambda_function.py` lines 76-85):
`scrape_ad_details` results that are truthy are stored under the key
`str(ad_id)`; a `None` result (404 or unparseable body) is skipped, and a
raised exception is caught (`except: ... continue`) so only that ID is
skipped.  `scrape i` is the outcome of `scrape_ad_details` for ID `i`. -/
def extractor_batch_results {α : Type} (scrape : Int → Except String (Option α)) :
    List Int → List (String × α)
  | [] => []
  | ad_id :: rest =>
      match scrape ad_id with
      | .ok (some ad_data) => (toString ad_id, ad_data) :: extractor_batch_results scrape rest
      | _ => extractor_batch_results scrape rest

/-- Embeds the Extractor Worker's `process_record`
(`src/extractor_worker/lambda_function.py` lines 66-102): per-ID fetch
failures never escape it, so (with the S3 upload succeeding — blob-write
failure is out of scope here) the message is processed successfully and is
not reported in `batchItemFailures`. -/
def extractor_process_record {α : Type} (scrape : Int → Except String (Option α))
    (ad_ids : List Int) : Except String (List (String × α)) :=
  .ok (extractor_batch_results scrape ad_ids)

/-! ## Worker invocation loop with near-timeout guard -/

/-- One SQS record as seen by `lambda_handler`: only its opaque
`messageId` matters to the invocation loop. -/
structure SqsRecord where
  messageId : String
deriving DecidableEq

/-- Embeds the `for record in event['Records']` loop shared by the two
workers (`src/discovery_worker/lambda_function.py` lines 161-172 and
`src/extractor_worker/lambda_function.py` lines 116-127):
if `context.get_remaining_time_in_millis() < 10000` the record is appended
to `batch_item_failures` and skipped with `continue` (zero fetches);
otherwise `process_record` runs and an exception appends the record to the
failures.  `remaining n` is the millisecond budget read before the `n`-th
record; `proc` gives each record's processing outcome together with the
number of fetch attempts it performs.  Returns the per-record fetch-attempt
log and the failure report, in record order. -/
def worker_handler_loop (remaining : Nat → Nat)
    (proc : SqsRecord → Except String Unit × Nat) :
    List SqsRecord → Nat → List (String × Nat) × List String
  | [], _ => ([], [])
  | record :: rest, idx =>
      let tail := worker_handler_loop remaining proc rest (idx + 1)
      if remaining idx < 10000 then
        ((record.messageId, 0) :: tail.1, record.messageId :: tail.2)
      else
        ((record.messageId, (proc record).2) :: tail.1,
         match (proc record).1 with
         | .error _ => record.messageId :: tail.2
         | .ok _ => tail.2)

/-! ## Dispatcher: total-page computation -/

/-- The item count each search page carries
(`src/dispatcher/lambda_function.py` line 32). -/
def ITEMS_PER_PAGE : Nat := 30

/-- Embeds the tail of `get_total_pages`
(`src/dispatcher/lambda_function.py` lines 57-62), given the parsed body of
the page-1 response after the retry-until-200 rotation loop:
`total_items = data.get("totalItems", 9969)` then
`(total_items // ITEMS_PER_PAGE) + 1`.  `totalItems_field` is the value of
the `totalItems` field when present. -/
def get_total_pages (totalItems_field : Option Nat) : Nat :=
  let total_items := totalItems_field.getD 9969
  total_items / ITEMS_PER_PAGE + 1

/-! ## Watermark store read -/

/-- Embeds `get_ssm_parameter` (`src/discovery_worker/utils.py` lines
97-112).  The durable parameter store is modelled as a partial map from
parameter names to stored string values.  The module `utils.py` never
imports `ClientError`, so whenever the `try` body raises — `get_parameter`
raising `ParameterNotFound` for a missing name, or `int(...)` raising
`ValueError` — Python first evaluates the class expression of the
`except ClientError` clause at line 103, which itself raises
`NameError: name ClientError is not defined`.  Both error paths therefore
raise `NameError` and the intended `return 0` at line 106 (and the
`ValueError` handler at line 110) are unreachable; only the success path
returns a value. -/
def get_ssm_parameter (ssm_store : String → Option String) (parameter_name : String) :
    Except String Int :=
  match ssm_store parameter_name with
  | none => .error "NameError: name ClientError is not defined"
  | some value =>
      match value.toInt? with
      | some v => .ok v
      | none => .error "NameError: name ClientError is not defined"

/-! ## Theorems for C7, C8, C4, C9 -/

/-- The keys stored by the Extractor's per-ID loop are exactly the IDs
whose fetch returned a truthy detail, in order. -/
lemma extractor_batch_results_keys {α : Type} (scrape : Int → Except String (Option α)) :
    ∀ (ad_ids : List Int),
      (extractor_batch_results scrape ad_ids).map Prod.fst
        = (ad_ids.filter (fun i =>
            match scrape i with
            | .ok (some _) => true
            | _ => false)).map toString := by
  intro ad_ids
  induction ad_ids with
  | nil => rfl
  | cons ad_id rest ih =>
      have hcons : extractor_batch_results scrape (ad_id :: rest)
          = match scrape ad_id with
            | .ok (some ad_data) =>
                (toString ad_id, ad_data) :: extractor_batch_results scrape rest
            | _ => extractor_batch_results scrape rest := rfl
      rcases hs : scrape ad_id with e | v
      · rw [hs] at hcons
        rw [hcons, List.filter_cons]
        simp only [hs]
        exact ih
      · rcases v with _ | d
        · rw [hs] at hcons
          rw [hcons, List.filter_cons]
          simp only [hs]
          exact ih
        · rw [hs] at hcons
          rw [hcons, List.filter_cons]
          simp only [hs, List.map_cons, if_true]
          rw [ih]

/-- The detail responses of the C7 scenario: ID 102 gets a 404 on its first
attempt; IDs 101 and 103 get a 200 with a parseable body whose `classified`
field is present. -/
def c7_responses (ad_id : Int) : Nat → HttpAttempt (Option Nat) :=
  fun _ =>
    if ad_id = 102 then .response 404 none
    else if ad_id = 101 then .response 200 (some (some 1101))
    else .response 200 (some (some 1103))

/-- The C7 scenario's per-ID fetch: `scrape_ad_details` on the scenario's
responses. -/
def c7_scrape (ad_id : Int) : Except String (Option Nat) :=
  (scrape_ad_details (c7_responses ad_id) ad_id).1

/-- C7: per-ID failure isolation in the Extractor Worker.  In general the
detail blob's keys are exactly the IDs whose fetch yielded a detail (a 404,
decode error or exhausted-retries exception skips only that ID), and
`process_record` always completes (per-ID exceptions are caught).  In the
concrete scenario [101, 102, 103] with 102 → 404, the blob holds exactly
the keys {"101", "103"} and the message's identifier is absent from the
invocation's failure report. -/
theorem C7_per_id_isolation :
    (∀ (α : Type) (scrape : Int → Except String (Option α)) (ad_ids : List Int),
       (extractor_batch_results scrape ad_ids).map Prod.fst
         = (ad_ids.filter (fun i =>
             match scrape i with
             | .ok (some _) => true
             | _ => false)).map toString ∧
       extractor_process_record scrape ad_ids = .ok (extractor_batch_results scrape ad_ids)) ∧
    extractor_process_record c7_scrape [101, 102, 103]
      = .ok [("101", 1101), ("103", 1103)] ∧
    (worker_handler_loop (fun _ => 300000)
        (fun _ => (Except.map (fun _ => ())
            (extractor_process_record c7_scrape [101, 102, 103]), 3))
        [⟨"msg-1"⟩] 0).2 = [] := by
  refine ⟨?_, rfl, rfl⟩
  intro α scrape ad_ids
  exact ⟨extractor_batch_results_keys scrape ad_ids, rfl⟩

/-- C8: the Dispatcher's total-page computation returns
`totalItems / ITEMS_PER_PAGE + 1` (floor division) when the page-1 body
carries the `totalItems` field, and `9969 / ITEMS_PER_PAGE + 1 = 333` when
the field is absent. -/
theorem C8_total_pages (totalItems : Nat) :
    get_total_pages (some totalItems) = totalItems / ITEMS_PER_PAGE + 1 ∧
    get_total_pages none = 9969 / ITEMS_PER_PAGE + 1 ∧
    get_total_pages none = 333 :=
  ⟨rfl, rfl, rfl⟩

/-- C4: the claim (and the spec: an absent watermark reads as the logical
value 0) does not hold of the code as written.  Reading the watermark of a
category with no stored entry raises `NameError` — `utils.py` never imports
`ClientError`, so the `except` clause meant to catch `ParameterNotFound`
fails before it can return 0.  Evaluated here at an empty store and the
category "maison/a-vendre": the read is the `NameError`, not `.ok 0`. -/
theorem C4_missing_watermark_raises_name_error :
    get_ssm_parameter (fun _ => none) ("/" ++ "maison/a-vendre")
        = .error "NameError: name ClientError is not defined" ∧
    get_ssm_parameter (fun _ => none) ("/" ++ "maison/a-vendre") ≠ .ok 0 :=
  ⟨rfl, fun h => Except.noConfusion h⟩

/-- Generalised form of the near-timeout guard, for a loop started at
record index `i`. -/
lemma worker_handler_loop_budget_guard (remaining : Nat → Nat)
    (proc : SqsRecord → Except String Unit × Nat) :
    ∀ (records : List SqsRecord) (i j : Nat) (hj : j < records.length),
      remaining (i + j) < 10000 →
      ((records.get ⟨j, hj⟩).messageId ∈ (worker_handler_loop remaining proc records i).2 ∧
       (worker_handler_loop remaining proc records i).1.get? j
         = some ((records.get ⟨j, hj⟩).messageId, 0)) := by
  intro records
  induction records with
  | nil => intro i j hj; exact absurd hj (by simp)
  | cons r rs ih =>
      intro i j hj hb
      have hloop : worker_handler_loop remaining proc (r :: rs) i
          = if remaining i < 10000 then
              ((r.messageId, 0) :: (worker_handler_loop remaining proc rs (i + 1)).1,
               r.messageId :: (worker_handler_loop remaining proc rs (i + 1)).2)
            else
              ((r.messageId, (proc r).2) :: (worker_handler_loop remaining proc rs (i + 1)).1,
               match (proc r).1 with
               | .error _ =>
                   r.messageId :: (worker_handler_loop remaining proc rs (i + 1)).2
               | .ok _ => (worker_handler_loop remaining proc rs (i + 1)).2) := rfl
      cases j with
      | zero =>
          have hb0 : remaining i < 10000 := by simpa using hb
          rw [hloop, if_pos hb0]
          exact ⟨List.mem_cons_self _ _, rfl⟩
      | succ j' =>
          have hj' : j' < rs.length := by
            simpa using Nat.lt_of_succ_lt_succ (by simpa using hj)
          have hb' : remaining ((i + 1) + j') < 10000 := by
            have harith : (i + 1) + j' = i + (j' + 1) := by omega
            rw [harith]; exact hb
          obtain ⟨ihm, ihg⟩ := ih (i + 1) j' hj' hb'
          rw [hloop]
          by_cases hb0 : remaining i < 10000
          · rw [if_pos hb0]
            exact ⟨List.mem_cons_of_mem _ ihm, ihg⟩
          · rw [if_neg hb0]
            rcases hp : (proc r).1 with e | u
            · simp only [hp]
              exact ⟨List.mem_cons_of_mem _ ihm, ihg⟩
            · simp only [hp]
              exact ⟨ihm, ihg⟩

/-- C9: if the remaining time budget read before a message is below the
10000 ms safety threshold, that message's identifier appears in the
returned failure report and zero fetch attempts are made for it. -/
theorem C9_timeout_guard (remaining : Nat → Nat)
    (proc : SqsRecord → Except String Unit × Nat)
    (records : List SqsRecord) (j : Nat) (hj : j < records.length)
    (hbudget : remaining j < 10000) :
    (records.get ⟨j, hj⟩).messageId ∈ (worker_handler_loop remaining proc records 0).2 ∧
    (worker_handler_loop remaining proc records 0).1.get? j
      = some ((records.get ⟨j, hj⟩).messageId, 0) :=
  worker_handler_loop_budget_guard remaining proc records 0 j hj (by simpa using hbudget)

/-- Witness for C9: two records, an exhausted budget, index 1. -/
theorem C9_timeout_guard_witness :
    (1 < ([⟨"a"⟩, ⟨"b"⟩] : List SqsRecord).length ∧ (fun _ => 0) 1 < 10000) ∧
    ((([⟨"a"⟩, ⟨"b"⟩] : List SqsRecord).get ⟨1, by decide⟩).messageId
        ∈ (worker_handler_loop (fun _ => 0) (fun _ => (.ok (), 5)) [⟨"a"⟩, ⟨"b"⟩] 0).2 ∧
     (worker_handler_loop (fun _ => 0) (fun _ => (.ok (), 5)) [⟨"a"⟩, ⟨"b"⟩] 0).1.get? 1
        = some ((([⟨"a"⟩, ⟨"b"⟩] : List SqsRecord).get ⟨1, by decide⟩).messageId, 0)) :=
  ⟨⟨by decide, by decide⟩,
   C9_timeout_guard (fun _ => 0) (fun _ => (.ok (), 5)) [⟨"a"⟩, ⟨"b"⟩] 1
     (by decide) (by decide)⟩
